import Mathlib

/-
Shallow embedding of the SpinBox web component, progression step 006
(src/code/progression/006/SpinBox.js and ShadowHelperMixin.js), together
with the 007 variant of the mixin (src/code/progression/007/ShadowHelperMixin.js).

State is modelled explicitly: the sole state member `_value`, the shadow
root (absent until `attachShadow` runs, then holding the stamped template
content: the #input element's value string and the wired-listener flags),
plus ghost counters observing how often `attachShadow`,
`componentFirstRender`, the projection step of `render`, and an uncaught
handler exception occur.
-/

namespace SpinBox006

/-- JS number values reachable in the SpinBox: integers (from the literal 0,
`parseInt` on numeric strings, and increment or decrement) and NaN (from
`parseInt` on non-numeric strings). -/
inductive JSNum where
  | int (n : Int)
  | nan
  deriving DecidableEq, Repr

/-- JS strict inequality `!==` restricted to numbers: two integers are
unequal iff they differ; NaN is strictly unequal to everything, itself
included. -/
def jsStrictNeq : JSNum → JSNum → Bool
  | JSNum.int a, JSNum.int b => a != b
  | _, _ => true

/-- JS number-to-string coercion, as performed by `input.value = this.value`:
integers print in decimal, NaN prints as "NaN". -/
def jsNumToString : JSNum → String
  | JSNum.int n => toString n
  | JSNum.nan => "NaN"

/-- JS `++` on the value property: integers increment, NaN + 1 = NaN. -/
def jsInc : JSNum → JSNum
  | JSNum.int n => JSNum.int (n + 1)
  | JSNum.nan => JSNum.nan

/-- JS `--` on the value property: integers decrement, NaN - 1 = NaN. -/
def jsDec : JSNum → JSNum
  | JSNum.int n => JSNum.int (n - 1)
  | JSNum.nan => JSNum.nan

/-- Accumulate a list of decimal digit characters into a natural number. -/
def digitsVal (cs : List Char) : Nat :=
  cs.foldl (fun acc c => acc * 10 + (c.toNat - 48)) 0

/-- JS `parseInt(s)` (radix 10, as called in attributeChangedCallback):
skip leading whitespace, accept an optional sign, read the maximal run of
leading decimal digits; NaN when that run is empty. -/
def parseIntJS (s : String) : JSNum :=
  let cs := s.data.dropWhile (fun c => c = ' ')
  let signAndRest : Bool × List Char :=
    match cs with
    | c :: rest =>
        if c = '-' then (true, rest)
        else if c = '+' then (false, rest)
        else (false, cs)
    | [] => (false, [])
  let ds := signAndRest.2.takeWhile Char.isDigit
  if ds.isEmpty then JSNum.nan
  else if signAndRest.1 then JSNum.int (-(digitsVal ds : Int))
  else JSNum.int (digitsVal ds)

/-- Contents of the SpinBox shadow root once the #spinBoxTemplate has been
stamped into it: the #input element's value string, and whether the
input/upButton/downButton listeners have been attached. -/
structure ShadowRootState where
  inputValue : String
  inputWired : Bool
  upWired : Bool
  downWired : Bool
  deriving DecidableEq, Repr

/-- The deep copy of #spinBoxTemplate content inserted by renderHelper:
an #input with no value attribute and two buttons, no listeners yet. -/
def templateClone : ShadowRootState :=
  { inputValue := "", inputWired := false, upWired := false, downWired := false }

/-- Whole state of one SpinBox instance: the sole state member `_value`,
the shadow root (none before attachShadow), and ghost counters — number of
attachShadow calls, of componentFirstRender calls, of executions of the
projection step at the end of render, and of uncaught handler exceptions. -/
structure SpinBoxState where
  _value : JSNum
  shadowRoot : Option ShadowRootState
  attachCount : Nat
  firstRenderCount : Nat
  projectionCount : Nat
  errorCount : Nat
  deriving DecidableEq, Repr

/-- State right after the constructor ran: `this._value = 0`, no shadow
root, nothing has happened yet. -/
def initialSpinBox : SpinBoxState :=
  { _value := JSNum.int 0, shadowRoot := none,
    attachCount := 0, firstRenderCount := 0, projectionCount := 0, errorCount := 0 }

/-- renderHelper from 006/ShadowHelperMixin.js: `firstRender = !this.shadowRoot`;
when true, attachShadow and stamp a deep copy of the template into the new
root; return firstRender. -/
def renderHelper (s : SpinBoxState) : SpinBoxState × Bool :=
  let firstRender := s.shadowRoot.isNone
  if firstRender then
    ({ s with shadowRoot := some templateClone, attachCount := s.attachCount + 1 }, true)
  else
    (s, false)

/-- componentFirstRender from 006/SpinBox.js: look up #input, #upButton and
#downButton in the shadow root and attach their listeners. Reading
`this.shadowRoot` while it is absent would be a null dereference, hence the
Option result; the wired input listener's body reads the undeclared
identifier `inputElem` — that only matters when the listener later fires
(see dispatchInput), not here. -/
def componentFirstRender (s : SpinBoxState) : Option SpinBoxState :=
  match s.shadowRoot with
  | none => none
  | some r =>
      some { s with
               shadowRoot := some { r with inputWired := true, upWired := true, downWired := true },
               firstRenderCount := s.firstRenderCount + 1 }

/-- Projection step at the end of render:
`this.shadowRoot.getElementById('input').value = this.value`. Reading
`this.shadowRoot` while it is absent would be a null dereference, hence the
Option result. -/
def projectValue (s : SpinBoxState) : Option SpinBoxState :=
  match s.shadowRoot with
  | none => none
  | some r =>
      some { s with
               shadowRoot := some { r with inputValue := jsNumToString s._value },
               projectionCount := s.projectionCount + 1 }

/-- render from 006/SpinBox.js: `const firstRender = this.renderHelper();
if (firstRender) this.componentFirstRender();` then the projection step. -/
def render (s : SpinBoxState) : Option SpinBoxState :=
  let hr := renderHelper s
  let afterInit := if hr.2 then componentFirstRender hr.1 else some hr.1
  afterInit.bind projectValue

/-- The value setter: `if (value !== this._value) { this._value = value;
this.render(); }`. -/
def setValue (s : SpinBoxState) (v : JSNum) : Option SpinBoxState :=
  if jsStrictNeq v s._value then render { s with _value := v } else some s

/-- connectedCallback: reduces to calling render. -/
def connectedCallback (s : SpinBoxState) : Option SpinBoxState :=
  render s

/-- attributeChangedCallback(name, oldValue, newValue): when name is
"value", forward `parseInt(newValue)` to the value setter; other names are
ignored (oldValue is never read by the source). -/
def attributeChangedCallback (s : SpinBoxState) (name : String)
    (_oldValue : Option String) (newValue : String) : Option SpinBoxState :=
  if name = "value" then setValue s (parseIntJS newValue) else some s

/-- A mousedown on #upButton: when its listener is wired, run
`this.value++`; with no listener (or no shadow root yet) nothing happens. -/
def dispatchUp (s : SpinBoxState) : Option SpinBoxState :=
  match s.shadowRoot with
  | none => some s
  | some r => if r.upWired then setValue s (jsInc s._value) else some s

/-- A mousedown on #downButton: when its listener is wired, run
`this.value--`; with no listener (or no shadow root yet) nothing happens. -/
def dispatchDown (s : SpinBoxState) : Option SpinBoxState :=
  match s.shadowRoot with
  | none => some s
  | some r => if r.downWired then setValue s (jsDec s._value) else some s

/-- Direct text entry on #input: the browser first updates the element's
value to the entered text, then fires the input event. The listener wired
in componentFirstRender runs `this.value = inputElem.value`, but `inputElem`
is not in scope there (the local is named `inputElement`), so evaluating it
throws a ReferenceError before any assignment to `value`; the uncaught
exception is recorded in errorCount and `_value` is left unchanged. -/
def dispatchInput (s : SpinBoxState) (entered : String) : Option SpinBoxState :=
  match s.shadowRoot with
  | none => some s
  | some r =>
      let s1 := { s with shadowRoot := some { r with inputValue := entered } }
      if r.inputWired then some { s1 with errorCount := s1.errorCount + 1 } else some s1

/-- Entry points through which the host environment or the user can drive
one SpinBox instance. -/
inductive Event where
  | connect
  | attrChanged (name : String) (oldValue : Option String) (newValue : String)
  | setVal (v : JSNum)
  | clickUp
  | clickDown
  | textEntry (entered : String)
  deriving DecidableEq, Repr

/-- One entry-point invocation. -/
def step (s : SpinBoxState) : Event → Option SpinBoxState
  | Event.connect => connectedCallback s
  | Event.attrChanged nm ov nv => attributeChangedCallback s nm ov nv
  | Event.setVal v => setValue s v
  | Event.clickUp => dispatchUp s
  | Event.clickDown => dispatchDown s
  | Event.textEntry t => dispatchInput s t

/-- Run a serialized sequence of entry-point invocations. -/
def runEvents (s : SpinBoxState) : List Event → Option SpinBoxState
  | [] => some s
  | e :: es => (step s e).bind (fun t => runEvents t es)

/-- Call render n times in sequence. -/
def iterateRender : Nat → SpinBoxState → Option SpinBoxState
  | 0, s => some s
  | Nat.succ n, s => (render s).bind (iterateRender n)

/-
The 006 and 007 variants of ShadowHelperMixin, modelled over an arbitrary
host. The shadow root holds the nodes stamped into it; the template
capability is a list of nodes the host supplies — through a public
`template` property in 006, through a module-level Symbol-keyed slot in
007 (field templateSym here).
-/

/-- A host as the 006 mixin sees it: the shadow root slot plus the public
`template` property the host must supply. -/
structure Host006 where
  shadowRoot : Option (List String)
  template : List String
  deriving DecidableEq, Repr

/-- A host as the 007 mixin sees it: the shadow root slot plus the
Symbol-keyed template slot (`this[template]` in the source). -/
structure Host007 where
  shadowRoot : Option (List String)
  templateSym : List String
  deriving DecidableEq, Repr

/-- renderHelper from 006/ShadowHelperMixin.js: when the shadow root is
absent, attach one and stamp a deep copy of `this.template` into it. -/
def renderHelper006 (h : Host006) : Host006 × Bool :=
  let firstRender := h.shadowRoot.isNone
  if firstRender then ({ h with shadowRoot := some h.template }, true) else (h, false)

/-- renderHelper from 007/ShadowHelperMixin.js: identical except the
template is fetched through the shared Symbol key, `this[template]`. -/
def renderHelper007 (h : Host007) : Host007 × Bool :=
  let firstRender := h.shadowRoot.isNone
  if firstRender then ({ h with shadowRoot := some h.templateSym }, true) else (h, false)

/-- Identify a 006 host with the 007 host supplying the same template
content under the Symbol key. -/
def toHost007 (h : Host006) : Host007 :=
  { shadowRoot := h.shadowRoot, templateSym := h.template }

/-- Call the 006 renderHelper n times, collecting the returned booleans. -/
def runHelper006 : Nat → Host006 → Host006 × List Bool
  | 0, h => (h, [])
  | Nat.succ n, h =>
      ((runHelper006 n (renderHelper006 h).1).1,
       (renderHelper006 h).2 :: (runHelper006 n (renderHelper006 h).1).2)

/-- Call the 007 renderHelper n times, collecting the returned booleans. -/
def runHelper007 : Nat → Host007 → Host007 × List Bool
  | 0, h => (h, [])
  | Nat.succ n, h =>
      ((runHelper007 n (renderHelper007 h).1).1,
       (renderHelper007 h).2 :: (runHelper007 n (renderHelper007 h).1).2)

/-
Helper lemmas: closed forms of renderHelper and render by cases on the
shadow root.
-/

theorem renderHelper_of_none {s : SpinBoxState} (h : s.shadowRoot = none) :
    renderHelper s =
      ({ s with shadowRoot := some templateClone, attachCount := s.attachCount + 1 }, true) := by
  simp [renderHelper, h]

theorem renderHelper_of_some {s : SpinBoxState} {r : ShadowRootState}
    (h : s.shadowRoot = some r) : renderHelper s = (s, false) := by
  simp [renderHelper, h]

theorem render_of_none {s : SpinBoxState} (h : s.shadowRoot = none) :
    render s =
      some { _value := s._value,
             shadowRoot := some { inputValue := jsNumToString s._value,
                                  inputWired := true, upWired := true, downWired := true },
             attachCount := s.attachCount + 1,
             firstRenderCount := s.firstRenderCount + 1,
             projectionCount := s.projectionCount + 1,
             errorCount := s.errorCount } := by
  simp [render, renderHelper_of_none h, componentFirstRender, projectValue, templateClone]

theorem render_of_some {s : SpinBoxState} {r : ShadowRootState}
    (h : s.shadowRoot = some r) :
    render s =
      some { _value := s._value,
             shadowRoot := some { inputValue := jsNumToString s._value,
                                  inputWired := r.inputWired,
                                  upWired := r.upWired, downWired := r.downWired },
             attachCount := s.attachCount,
             firstRenderCount := s.firstRenderCount,
             projectionCount := s.projectionCount + 1,
             errorCount := s.errorCount } := by
  simp [render, renderHelper_of_some h, projectValue, h]

theorem render_isSome (s : SpinBoxState) : (render s).isSome = true := by
  cases h : s.shadowRoot with
  | none => simp [render_of_none h]
  | some r => simp [render_of_some h]

/-- Fields of the state produced by render: the value is untouched and
exactly one projection pass is counted. -/
theorem render_fields (s : SpinBoxState) :
    (render s).map (fun t => t._value) = some s._value ∧
    (render s).map (fun t => t.projectionCount) = some (s.projectionCount + 1) := by
  cases h : s.shadowRoot with
  | none =>
      rw [render_of_none h]
      exact ⟨rfl, rfl⟩
  | some r =>
      rw [render_of_some h]
      exact ⟨rfl, rfl⟩

/-- Storing a fresh value through the setter: when the new value is
strictly unequal to the current one, it is written verbatim and one
projection pass runs. -/
theorem setValue_store_fields (s : SpinBoxState) (v : JSNum)
    (h : jsStrictNeq v s._value = true) :
    (setValue s v).map (fun t => t._value) = some v ∧
    (setValue s v).map (fun t => t.projectionCount) = some (s.projectionCount + 1) := by
  have hset : setValue s v = render { s with _value := v } := by
    simp [setValue, h]
  have hf := render_fields { s with _value := v }
  rw [hset]
  exact ⟨hf.1, hf.2⟩

/-- After any render of a state whose shadow root is already present, the
counters attachCount and firstRenderCount are untouched and the root stays
present; iterated over n further render calls. -/
theorem iterate_steady (n : Nat) :
    ∀ (s : SpinBoxState) (r : ShadowRootState), s.shadowRoot = some r →
      ∀ t, iterateRender n s = some t →
        t.attachCount = s.attachCount ∧ ∃ r2, t.shadowRoot = some r2 := by
  induction n with
  | zero =>
      intro s r h t ht
      simp [iterateRender] at ht
      subst ht
      exact ⟨rfl, r, h⟩
  | succ n ih =>
      intro s r h t ht
      rw [iterateRender, render_of_some h] at ht
      simp only [Option.some_bind] at ht
      obtain ⟨hc, r2, hr2⟩ := ih _ _ rfl t ht
      exact ⟨hc, r2, hr2⟩

/-- The invariant tying the componentFirstRender counter to the presence
of the shadow root: the hook has run exactly once when the root exists,
never otherwise. -/
def FirstRenderInv (s : SpinBoxState) : Prop :=
  s.firstRenderCount = if s.shadowRoot.isSome then 1 else 0

theorem render_inv {s t : SpinBoxState} (hs : FirstRenderInv s)
    (ht : render s = some t) : FirstRenderInv t := by
  unfold FirstRenderInv at hs ⊢
  cases h : s.shadowRoot with
  | none =>
      rw [render_of_none h] at ht
      cases ht
      rw [h] at hs
      simpa using hs
  | some r =>
      rw [render_of_some h] at ht
      cases ht
      rw [h] at hs
      simpa using hs

theorem setValue_inv {s t : SpinBoxState} {v : JSNum} (hs : FirstRenderInv s)
    (ht : setValue s v = some t) : FirstRenderInv t := by
  unfold setValue at ht
  by_cases hb : jsStrictNeq v s._value = true
  · rw [if_pos hb] at ht
    exact render_inv (s := { s with _value := v }) hs ht
  · rw [if_neg hb] at ht
    cases ht
    exact hs

theorem step_inv {s t : SpinBoxState} {e : Event} (hs : FirstRenderInv s)
    (ht : step s e = some t) : FirstRenderInv t := by
  cases e with
  | connect => exact render_inv hs ht
  | attrChanged nm ov nv =>
      simp only [step, attributeChangedCallback] at ht
      by_cases hn : nm = "value"
      · rw [if_pos hn] at ht
        exact setValue_inv hs ht
      · rw [if_neg hn] at ht
        cases ht
        exact hs
  | setVal v => exact setValue_inv hs ht
  | clickUp =>
      simp only [step, dispatchUp] at ht
      cases h : s.shadowRoot with
      | none => simp only [h] at ht; cases ht; exact hs
      | some r =>
          simp only [h] at ht
          by_cases hw : r.upWired = true
          · rw [if_pos hw] at ht
            exact setValue_inv hs ht
          · rw [if_neg hw] at ht
            cases ht
            exact hs
  | clickDown =>
      simp only [step, dispatchDown] at ht
      cases h : s.shadowRoot with
      | none => simp only [h] at ht; cases ht; exact hs
      | some r =>
          simp only [h] at ht
          by_cases hw : r.downWired = true
          · rw [if_pos hw] at ht
            exact setValue_inv hs ht
          · rw [if_neg hw] at ht
            cases ht
            exact hs
  | textEntry txt =>
      simp only [step, dispatchInput] at ht
      unfold FirstRenderInv at hs ⊢
      cases h : s.shadowRoot with
      | none => simp only [h] at ht; cases ht; exact hs
      | some r =>
          simp only [h] at ht
          rw [h] at hs
          by_cases hw : r.inputWired = true
          · rw [if_pos hw] at ht
            cases ht
            simpa using hs
          · rw [if_neg hw] at ht
            cases ht
            simpa using hs

theorem runEvents_inv {s t : SpinBoxState} {evs : List Event}
    (hs : FirstRenderInv s) (ht : runEvents s evs = some t) : FirstRenderInv t := by
  induction evs generalizing s with
  | nil =>
      simp [runEvents] at ht
      subst ht
      exact hs
  | cons e es ih =>
      rw [runEvents] at ht
      cases hstep : step s e with
      | none => rw [hstep] at ht; cases ht
      | some m =>
          rw [hstep] at ht
          simp only [Option.some_bind] at ht
          exact ih (step_inv hs hstep) ht

/-
Concrete states used by the witnesses below.
-/

/-- State of a SpinBox after constructing and attaching it once. -/
def afterConnect : SpinBoxState :=
  { _value := JSNum.int 0,
    shadowRoot := some { inputValue := "0", inputWired := true, upWired := true, downWired := true },
    attachCount := 1, firstRenderCount := 1, projectionCount := 1, errorCount := 0 }

/-- State of a SpinBox after constructing it and calling render three
times in sequence. -/
def afterThreeRenders : SpinBoxState :=
  { _value := JSNum.int 0,
    shadowRoot := some { inputValue := "0", inputWired := true, upWired := true, downWired := true },
    attachCount := 1, firstRenderCount := 1, projectionCount := 3, errorCount := 0 }

/-- A SpinBox whose current value is already NaN (reachable, e.g. through
a non-numeric "value" attribute). -/
def nanValueState : SpinBoxState :=
  { _value := JSNum.nan, shadowRoot := none,
    attachCount := 0, firstRenderCount := 0, projectionCount := 0, errorCount := 0 }

/-
Claim theorems.
-/

/-- C1, counterexample. The claim says a fresh, never-attached SpinBox
receiving attributeChangedCallback with name "value" and the non-numeric
raw string "abc" keeps value 0, runs no projection pass and creates no
shadow root. On the code, parseInt("abc") is NaN, NaN !== 0, so the setter
stores NaN and calls render: the resulting state has value NaN (not 0),
one projection pass counted, and a shadow root attached. -/
theorem c1_nonnumeric_attr_counterexample :
    attributeChangedCallback initialSpinBox "value" none "abc" =
      some { _value := JSNum.nan,
             shadowRoot := some { inputValue := "NaN",
                                  inputWired := true, upWired := true, downWired := true },
             attachCount := 1, firstRenderCount := 1, projectionCount := 1, errorCount := 0 } ∧
    JSNum.nan ≠ JSNum.int 0 := by
  exact ⟨by decide, by decide⟩

/-- C1, amended. Invoking attributeChangedCallback with name "value" and
the non-numeric raw string "abc" on a fresh, never-attached SpinBox parses
the string to NaN; since NaN !== 0 the value setter accepts it, so value
becomes NaN, exactly one projection pass runs, and the shadow root is
created (with the display element reading "NaN"). -/
theorem c1_nonnumeric_attr_behavior :
    parseIntJS "abc" = JSNum.nan ∧
    jsStrictNeq JSNum.nan (JSNum.int 0) = true ∧
    (attributeChangedCallback initialSpinBox "value" none "abc").map (fun t => t._value) =
      some JSNum.nan ∧
    (attributeChangedCallback initialSpinBox "value" none "abc").map (fun t => t.projectionCount) =
      some 1 ∧
    (attributeChangedCallback initialSpinBox "value" none "abc").map (fun t => t.attachCount) =
      some 1 := by
  decide

/-- C2. Starting from a SpinBox whose shadow root is absent, calling
render n times in sequence (n ≥ 1) attaches exactly one shadow root
(attachCount grows by exactly one), and from the resulting state
renderHelper is a no-op returning false — as it is after any call
following the first successful one. -/
theorem c2_single_materialization (s : SpinBoxState) (n : Nat) (t : SpinBoxState)
    (h0 : s.shadowRoot = none) (h1 : 1 ≤ n) (h2 : iterateRender n s = some t) :
    t.attachCount = s.attachCount + 1 ∧ renderHelper t = (t, false) := by
  obtain ⟨m, rfl⟩ : ∃ m, n = m + 1 := ⟨n - 1, by omega⟩
  rw [iterateRender, render_of_none h0] at h2
  simp only [Option.some_bind] at h2
  obtain ⟨hc, r2, hr2⟩ := iterate_steady m _ _ rfl t h2
  exact ⟨hc, renderHelper_of_some hr2⟩

/-- C2, witness: three renders of a fresh SpinBox attach exactly one
shadow root, and a further renderHelper call is a no-op returning false. -/
theorem c2_single_materialization_witness :
    afterThreeRenders.attachCount = initialSpinBox.attachCount + 1 ∧
    renderHelper afterThreeRenders = (afterThreeRenders, false) :=
  c2_single_materialization initialSpinBox 3 afterThreeRenders (by decide) (by decide) (by decide)

/-- C3. Across any serialized sequence of entry-point invocations
(attachment, attribute change, the value setter, and the wired interaction
handlers) starting from a freshly constructed SpinBox, componentFirstRender
has run at most once, and exactly once as soon as the shadow root exists. -/
theorem c3_wired_once (evs : List Event) (t : SpinBoxState)
    (h : runEvents initialSpinBox evs = some t) :
    t.firstRenderCount ≤ 1 ∧ (t.shadowRoot.isSome → t.firstRenderCount = 1) := by
  have hinv : FirstRenderInv t :=
    runEvents_inv (by simp [FirstRenderInv, initialSpinBox]) h
  unfold FirstRenderInv at hinv
  constructor
  · rw [hinv]
    split <;> omega
  · intro hroot
    rw [hinv, if_pos hroot]

/-- C3, witness: after attaching a fresh SpinBox, componentFirstRender has
run exactly once. -/
theorem c3_wired_once_witness :
    afterConnect.firstRenderCount ≤ 1 ∧
    (afterConnect.shadowRoot.isSome → afterConnect.firstRenderCount = 1) :=
  c3_wired_once [Event.connect] afterConnect (by decide)

/-- C4. Writing an integer k through the value setter: when k equals the
current value the setter is a complete no-op (the state, counters
included, is unchanged and no projection pass runs); otherwise k is stored
— a subsequent read of value returns k — and render runs exactly one
projection pass. -/
theorem c4_setter_noop_or_store (s : SpinBoxState) (k : Int) :
    (s._value = JSNum.int k → setValue s (JSNum.int k) = some s) ∧
    (s._value ≠ JSNum.int k →
      (setValue s (JSNum.int k)).map (fun t => t._value) = some (JSNum.int k) ∧
      (setValue s (JSNum.int k)).map (fun t => t.projectionCount) =
        some (s.projectionCount + 1)) := by
  constructor
  · intro h
    simp [setValue, h, jsStrictNeq]
  · intro h
    have hneq : jsStrictNeq (JSNum.int k) s._value = true := by
      cases hv : s._value with
      | int n =>
          simp only [jsStrictNeq, bne_iff_ne, ne_eq]
          intro hkn
          exact h (by rw [hv, hkn])
      | nan => rfl
    exact setValue_store_fields s (JSNum.int k) hneq

/-- C4, witness: writing 0 to a fresh SpinBox (current value 0) is a
no-op; writing 5 stores 5 and runs one projection pass. -/
theorem c4_setter_noop_or_store_witness :
    setValue initialSpinBox (JSNum.int 0) = some initialSpinBox ∧
    ((setValue initialSpinBox (JSNum.int 5)).map (fun t => t._value) = some (JSNum.int 5) ∧
     (setValue initialSpinBox (JSNum.int 5)).map (fun t => t.projectionCount) =
       some (initialSpinBox.projectionCount + 1)) :=
  ⟨(c4_setter_noop_or_store initialSpinBox 0).1 rfl,
   (c4_setter_noop_or_store initialSpinBox 5).2 (by decide)⟩

/-- C5. In every render invocation the shadow root exists by the time the
projection step runs: the state renderHelper hands on always carries a
shadow root, and render — whose projection step would fail (none) on an
absent root — always succeeds. -/
theorem c5_projection_never_absent (s : SpinBoxState) :
    (renderHelper s).1.shadowRoot.isSome = true ∧ (render s).isSome = true := by
  constructor
  · cases h : s.shadowRoot with
    | none => rw [renderHelper_of_none h]; rfl
    | some r => rw [renderHelper_of_some h]; simp [h]
  · exact render_isSome s

/-- C6. A fresh SpinBox that is only attached ends in exactly the same
state — value 0, display reading "0", one shadow root attached, handlers
wired once — as one that first receives the external "value" attribute
"0" and is then attached. -/
theorem c6_convergent_entry_points :
    runEvents initialSpinBox [Event.connect] =
      runEvents initialSpinBox [Event.attrChanged "value" none "0", Event.connect] ∧
    runEvents initialSpinBox [Event.connect] = some afterConnect := by
  decide

/-- C7. On a fresh, never-attached SpinBox, attributeChangedCallback with
name "value" and raw string "7" makes value 7, the display element read
"7", and creates the shadow root (attachCount 1) as a side effect of the
render triggered by the value setter — no attachment involved. -/
theorem c7_attr_seven_before_attach :
    attributeChangedCallback initialSpinBox "value" none "7" =
      some { _value := JSNum.int 7,
             shadowRoot := some { inputValue := "7",
                                  inputWired := true, upWired := true, downWired := true },
             attachCount := 1, firstRenderCount := 1, projectionCount := 1, errorCount := 0 } := by
  decide

/-- C8 (code behaviour at the failing input). After a first render has
wired the handlers, a direct text entry of "5" on the display element does
NOT mutate value: the wired input listener's body reads the undeclared
identifier `inputElem` (the local is named `inputElement`), so it throws a
ReferenceError — counted in errorCount — and value stays 0 while the
display element holds the typed "5". -/
theorem c8_text_entry_reference_error :
    runEvents initialSpinBox [Event.connect, Event.textEntry "5"] =
      some { _value := JSNum.int 0,
             shadowRoot := some { inputValue := "5",
                                  inputWired := true, upWired := true, downWired := true },
             attachCount := 1, firstRenderCount := 1, projectionCount := 1, errorCount := 1 } := by
  decide

/-- C9. The value setter performs no integer validation and compares with
strict inequality: any value strictly unequal to the current one is stored
verbatim and triggers a render with one projection pass; and since NaN is
strictly unequal to every value — itself included — a NaN write is always
accepted, even when the current value is already NaN. -/
theorem c9_setter_no_validation (s : SpinBoxState) (v : JSNum)
    (h : jsStrictNeq v s._value = true) :
    (setValue s v).map (fun t => t._value) = some v ∧
    (setValue s v).map (fun t => t.projectionCount) = some (s.projectionCount + 1) ∧
    jsStrictNeq JSNum.nan s._value = true := by
  refine ⟨(setValue_store_fields s v h).1, (setValue_store_fields s v h).2, ?_⟩
  cases s._value <;> rfl

/-- C9, witness: writing NaN to a SpinBox whose value is already NaN is
accepted — NaN is stored again and one projection pass runs. -/
theorem c9_setter_no_validation_witness :
    (setValue nanValueState JSNum.nan).map (fun t => t._value) = some JSNum.nan ∧
    (setValue nanValueState JSNum.nan).map (fun t => t.projectionCount) =
      some (nanValueState.projectionCount + 1) ∧
    jsStrictNeq JSNum.nan nanValueState._value = true :=
  c9_setter_no_validation nanValueState JSNum.nan (by decide)

/-- C10. The 006 and 007 variants of the mixin's renderHelper are
behaviourally equivalent: identifying a 006 host with the 007 host that
supplies the same template content through the Symbol-keyed slot, every
sequence of n calls yields the same shadow-root state and the same list of
firstRender booleans. -/
theorem c10_mixin_equivalent (n : Nat) (h : Host006) :
    runHelper007 n (toHost007 h) =
      (toHost007 (runHelper006 n h).1, (runHelper006 n h).2) := by
  induction n generalizing h with
  | zero => rfl
  | succ n ih =>
      have hstep : renderHelper007 (toHost007 h) =
          (toHost007 (renderHelper006 h).1, (renderHelper006 h).2) := by
        cases hs : h.shadowRoot <;>
          simp [renderHelper006, renderHelper007, toHost007, hs]
      simp only [runHelper006, runHelper007, hstep, ih]

end SpinBox006
